import Mathlib

/-!
Verification of the k8s-chat adaptive diagnostic orchestration pipeline.

The development shallowly embeds the relevant parts of the Python sources
(`app.py`, `k8s_client.py`, `llm_client.py`) as executable Lean functions:

* external effects (the `subprocess.run` call, the HTTP call to the LLM
  backend) are modelled by passing the observed outcome of the effect as an
  explicit argument of an inductive outcome type;
* Python dictionaries with string keys are modelled as insertion-ordered
  association lists with Python assignment semantics (update-in-place for an
  existing key, append for a fresh key);
* Python string operations (`strip`, `split`, `in`, `startswith`, `lower`,
  `join`) are modelled by the `py*` helpers below, as functions on the
  character list underlying a `String`.
-/

/- § Python string primitives -/

/-- Python `needle in haystack` for strings: substring (infix) test. -/
def pyIn (needle haystack : String) : Bool :=
  decide (needle.data <:+: haystack.data)

/-- Python `s.startswith(pre)`. -/
def pyStartsWith (s pre : String) : Bool :=
  decide (pre.data <+: s.data)

/-- Python `s.strip()` on the underlying character list: drop whitespace from
both ends. -/
def chStrip (l : List Char) : List Char :=
  (((l.dropWhile Char.isWhitespace).reverse.dropWhile Char.isWhitespace).reverse)

/-- Python `s.strip()`. -/
def pyStrip (s : String) : String :=
  String.mk (chStrip s.data)

/-- Python `s.lower()` (ASCII case folding, as used on the ASCII stderr
patterns of the source): lower-case every character. -/
def pyLower (s : String) : String :=
  String.mk (s.data.map Char.toLower)

/-- Accumulator worker for Python `s.split()` (split on whitespace runs,
discarding empty pieces).  `acc` holds the current word reversed. -/
def chWordsAux : List Char → List Char → List (List Char)
  | acc, [] => if acc.isEmpty then [] else [acc.reverse]
  | acc, c :: cs =>
    if c.isWhitespace then
      if acc.isEmpty then chWordsAux [] cs else acc.reverse :: chWordsAux [] cs
    else
      chWordsAux (c :: acc) cs

/-- Python `s.split()` with no separator argument: whitespace-run splitting. -/
def pySplitWhitespace (s : String) : List String :=
  (chWordsAux [] s.data).map (fun w => String.mk w)

/-- Python `' '.join(parts)`. -/
def pyJoinSpace (parts : List String) : String :=
  String.intercalate " " parts

/-- Worker for Python `s.split(sep)` with a nonempty separator: scan left to
right, emitting the accumulated piece whenever `sep` is a prefix of the rest
and skipping it.  The `fuel` argument makes the recursion structural so that
closed terms reduce inside the kernel; every step consumes at least one
character, so fuel equal to the input length never runs out. -/
def chSplitOnAux (sep : List Char) : Nat → List Char → List Char → List (List Char)
  | _, acc, [] => [acc.reverse]
  | 0, acc, l => [acc.reverse ++ l]
  | fuel + 1, acc, c :: cs =>
    if sep.isPrefixOf (c :: cs) then
      acc.reverse :: chSplitOnAux sep fuel [] ((c :: cs).drop sep.length)
    else
      chSplitOnAux sep fuel (c :: acc) cs

/-- Python `s.split(sep)` for a nonempty separator (the source only splits
on `kubectl ` and on a newline). -/
def pySplitOn (s sep : String) : List String :=
  (chSplitOnAux sep.data s.data.length [] s.data).map (fun w => String.mk w)

/-- Python `s.isdigit()` (ASCII digits): nonempty and all digits. -/
def pyIsDigit (s : String) : Bool :=
  !s.data.isEmpty && s.data.all Char.isDigit

/- § Diagnostic Executor: src/k8s_client.py -/

/-- The structured result dictionary built by
`K8sClient._run_kubectl_command` (src/k8s_client.py:58-148).  Optional
fields model dictionary keys that are present only on some branches; the
impure `timestamp` field is omitted. -/
structure KubectlResult where
  success : Bool
  error : Option String
  stdout : String
  stderr : String
  returncode : Int
  command : String
  kubectl_available : Option Bool
  cluster_accessible : Option Bool
deriving Repr, DecidableEq

/-- Observed outcome of the `subprocess.run` call inside
`_run_kubectl_command`: normal completion with exit code and captured
streams, `subprocess.TimeoutExpired`, `FileNotFoundError`, or any other
exception (carrying its `str(e)` text). -/
inductive SubprocessOutcome where
  | completed (returncode : Int) (stdout stderr : String)
  | timedOut
  | fileNotFound
  | otherError (msg : String)
deriving Repr, DecidableEq

namespace K8sClient

/-- `K8sClient._get_kubectl_command` (src/k8s_client.py:23-38).  A custom
kubeconfig path (one differing from the default `~/.kube/config`) is modelled
as `some path`. -/
def get_kubectl_command (customKubeconfig : Option String) (command : List String) :
    List String :=
  "kubectl" ::
    (match customKubeconfig with
     | some p => ["--kubeconfig", p]
     | none => []) ++ command

/-- `K8sClient._run_kubectl_command` (src/k8s_client.py:58-148), with the
outcome of the `subprocess.run` call passed explicitly.  Each branch mirrors the
corresponding `return` of the source: tool-missing stderr first, then the
cluster-connection stderr patterns, then the plain exit-code result; the
three `except` clauses become the three exceptional outcomes. -/
def run_kubectl_command (customKubeconfig : Option String) (command : List String)
    (timeout : Nat) (outcome : SubprocessOutcome) : KubectlResult :=
  let full_command := get_kubectl_command customKubeconfig command
  let cmdStr := pyJoinSpace full_command
  match outcome with
  | .completed rc out err =>
    if rc != 0 && pyIn "not found" (pyLower err) then
      { success := false
        error := some "kubectl not found - please install kubectl or ensure it\x27s in PATH"
        stdout := ""
        stderr := err
        returncode := rc
        command := cmdStr
        kubectl_available := some false
        cluster_accessible := none }
    else if rc != 0 &&
        (pyIn "unable to connect" (pyLower err) || pyIn "connection refused" (pyLower err) ||
         pyIn "no configuration" (pyLower err) || pyIn "invalid configuration" (pyLower err)) then
      { success := false
        error := some ("Cluster connection error: " ++ pyStrip err)
        stdout := ""
        stderr := err
        returncode := rc
        command := cmdStr
        kubectl_available := none
        cluster_accessible := some false }
    else
      { success := rc == 0
        error := none
        stdout := out
        stderr := err
        returncode := rc
        command := cmdStr
        kubectl_available := some true
        cluster_accessible := some true }
  | .timedOut =>
      { success := false
        error := some ("Command timed out after " ++ toString timeout ++ " seconds")
        stdout := ""
        stderr := "Timeout"
        returncode := -1
        command := cmdStr
        kubectl_available := none
        cluster_accessible := none }
  | .fileNotFound =>
      { success := false
        error := some "kubectl not found - please install kubectl or ensure it\x27s in PATH"
        stdout := ""
        stderr := "kubectl command not found"
        returncode := -1
        command := "kubectl"
        kubectl_available := some false
        cluster_accessible := none }
  | .otherError msg =>
      { success := false
        error := some msg
        stdout := ""
        stderr := msg
        returncode := -1
        command := cmdStr
        kubectl_available := none
        cluster_accessible := none }

/-- The shell metacharacters rejected by `_verify_file_path_safety`
(src/k8s_client.py:307). -/
def pathMetachars : List Char :=
  "|&;`$()".data

/-- `K8sClient._verify_file_path_safety` (src/k8s_client.py:295-314): strip
the path, normalise the empty path to `/`, then reject any of the shell
metacharacters. -/
def verify_file_path_safety (path : String) : Bool × String :=
  let path1 := pyStrip path
  let path2 := if path1 = "" then "/" else path1
  if pathMetachars.any (fun c => decide (c ∈ path2.data)) then
    (false, "Invalid characters in path")
  else
    (true, "Path is safe for read access")

/-- Result dictionary of `K8sClient.read_pod_file` (timestamp omitted). -/
structure PodFileResult where
  success : Bool
  error : Option String
  content : String
deriving Repr, DecidableEq

/-- `K8sClient.read_pod_file` (src/k8s_client.py:222-255).  `run` is the
executor for a kubectl argument vector; the second component of the result
collects the argument vectors actually passed to the executor, so that the
safety-gate branch is observably command-free. -/
def read_pod_file (run : List String → KubectlResult)
    (namespace_ pod_name file_path : String) :
    PodFileResult × List (List String) :=
  match verify_file_path_safety file_path with
  | (false, reason) =>
      ({ success := false
         error := some ("File access denied for safety reasons: " ++ reason)
         content := "" }, [])
  | (true, _) =>
      let argv := ["exec", pod_name, "-n", namespace_, "--", "cat", file_path]
      let result := run argv
      if result.success then
        ({ success := true, error := none, content := result.stdout }, [argv])
      else
        ({ success := false, error := some result.stderr, content := "" }, [argv])

/-- One record of `K8sClient._parse_ls_output`. -/
structure LsEntry where
  name : String
  type : String
  permissions : String
  owner : String
  group : String
  size : String
  modified : String
deriving Repr, DecidableEq

/-- `K8sClient._parse_ls_output` (src/k8s_client.py:316-363): parse one
`ls -la` line into a record, skipping blank lines, `total` lines and lines
with fewer than 9 whitespace-separated fields. -/
def parse_ls_line (line : String) : Option LsEntry :=
  if pyStrip line = "" || pyStartsWith line "total" then none
  else
    let parts := pySplitWhitespace line
    if parts.length < 9 then none
    else
      let permissions := parts.getD 0 ""
      let fileType :=
        if pyStartsWith permissions "d" then "directory"
        else if pyStartsWith permissions "l" then "symlink"
        else if pyStartsWith permissions "c" then "character"
        else if pyStartsWith permissions "b" then "block"
        else "file"
      some
        { name := pyJoinSpace (parts.drop 8)
          type := fileType
          permissions := permissions
          owner := parts.getD 2 ""
          group := parts.getD 3 ""
          size := if pyIsDigit (parts.getD 4 "") then parts.getD 4 "" else "0"
          modified := pyJoinSpace ((parts.drop 5).take 3) }

/-- `K8sClient._parse_ls_output` over the whole captured stdout. -/
def parse_ls_output (ls_output : String) : List LsEntry :=
  ((pySplitOn (pyStrip ls_output) "\n").map parse_ls_line).reduceOption

/-- Result dictionary of `K8sClient.browse_pod_files` (timestamp and
current_path omitted from the success branch are kept where the claims need
them; here we keep the fields the claims inspect). -/
structure BrowseResult where
  success : Bool
  error : Option String
  files : List LsEntry
deriving Repr, DecidableEq

/-- `K8sClient.browse_pod_files` (src/k8s_client.py:257-293), instrumented
like `read_pod_file` with the list of argument vectors handed to the
executor. -/
def browse_pod_files (run : List String → KubectlResult)
    (namespace_ pod_name path : String) :
    BrowseResult × List (List String) :=
  match verify_file_path_safety path with
  | (false, reason) =>
      ({ success := false
         error := some ("Path access denied for safety reasons: " ++ reason)
         files := [] }, [])
  | (true, _) =>
      let argv := ["exec", pod_name, "-n", namespace_, "--", "ls", "-la", path]
      let result := run argv
      if result.success then
        ({ success := true, error := none, files := parse_ls_output result.stdout }, [argv])
      else
        ({ success := false, error := some result.stderr, files := [] }, [argv])

end K8sClient

/- § LLM Provider Abstraction: src/llm_client.py -/

/-- Observed outcome of one `requests.post` call to the chat-completion
endpoint: HTTP 200 with the parsed message content, a non-200 status, or an
exception (timeouts included, since the provider methods catch bare
`Exception`). -/
inductive HttpOutcome where
  | ok (content : String)
  | httpError (status : Nat)
  | exn (msg : String)
deriving Repr, DecidableEq

/-- The per-line command extraction loop shared by `suggest_commands` and
`suggest_follow_up_commands` (src/llm_client.py:236-248, 373-385, and their
duplicates on the local provider at 913-925, 1050-1062): strip the line, and
when it mentions `kubectl `, re-prefix every nonempty stripped piece of the
split on `kubectl `. -/
def extractLineCommands (line : String) : List String :=
  let l := pyStrip line
  if pyStartsWith l "kubectl " || pyIn "kubectl " l then
    if pyIn "kubectl " l then
      (pySplitOn l "kubectl ").filterMap (fun part =>
        if pyStrip part = "" then none else some ("kubectl " ++ pyStrip part))
    else
      [l]
  else
    []

/-- The whole extraction over the model response content: iterate the line
loop over `content.split('\n')`, accumulating in order. -/
def extractKubectlCommands (content : String) : List String :=
  ((pySplitOn content "\n").map extractLineCommands).flatten

/-- The canned cluster-health fallback text of
`_generate_enhanced_fallback_response` (src/llm_client.py:616-631). -/
def clusterHealthFallbackText : String :=
  "I\x27m having trouble connecting to my AI service right now, but I can help you with cluster health analysis.\n\n**To check your cluster health, run:**\n```bash\nkubectl cluster-info\nkubectl get nodes\nkubectl get namespaces\nkubectl get pods --all-namespaces\n```\n\n**What to look for:**\n- Nodes in Ready status\n- Namespaces in Active status\n- Pods in Running state\n- Any error conditions"

/-- The canned pod-analysis fallback text of
`_generate_enhanced_fallback_response` (src/llm_client.py:633-654). -/
def podAnalysisFallbackText : String :=
  "I\x27m having trouble connecting to my AI service right now. For pod analysis, try these commands:\n\n```bash\n# List all pods\nkubectl get pods --all-namespaces\n\n# Get detailed pod information\nkubectl describe pods\n\n# Check pod logs\nkubectl logs <pod-name>\n\n# Filter by namespace\nkubectl get pods -n <namespace>\n```\n\nLook for pods with issues like:\n- CrashLoopBackOff\n- ImagePullBackOff\n- Pending\n- Error"

/-- The generic canned fallback text of
`_generate_enhanced_fallback_response` (src/llm_client.py:656-665). -/
def genericFallbackText : String :=
  "I\x27m having trouble connecting to my AI service right now. Please try again in a few moments, or contact your administrator if the issue persists.\n\nIn the meantime, you can use these basic kubectl commands:\n```bash\nkubectl get pods\nkubectl get services\nkubectl get deployments\nkubectl get nodes\n```"

namespace OpenRouterProvider

/-- `OpenRouterProvider._generate_enhanced_fallback_response`
(src/llm_client.py:611-665): select the canned text by `intent['type']`
(defaulting to `unknown` when absent); the `k8s_data` argument is unused by
the source body and therefore not modelled. -/
def generate_enhanced_fallback_response (intent_type : String) : String :=
  if intent_type = "cluster_health" then clusterHealthFallbackText
  else if intent_type = "pod_analysis" then podAnalysisFallbackText
  else genericFallbackText

/-- `OpenRouterProvider.suggest_commands` (src/llm_client.py:193-256): on
HTTP 200 extract commands from the content and truncate to 3; on a non-200
status or any exception return the empty list.  The HTTP response is the
explicit input; the question and history only shape the request payload. -/
def suggest_commands (response : HttpOutcome) : List String :=
  match response with
  | .ok content => (extractKubectlCommands content).take 3
  | .httpError _ => []
  | .exn _ => []

/-- `OpenRouterProvider.suggest_follow_up_commands`
(src/llm_client.py:321-393): same extraction, truncated to 2. -/
def suggest_follow_up_commands (response : HttpOutcome) : List String :=
  match response with
  | .ok content => (extractKubectlCommands content).take 2
  | .httpError _ => []
  | .exn _ => []

/-- `OpenRouterProvider.analyze_command_outputs` (src/llm_client.py:258-319):
on HTTP 200 return the message content; on a non-200 status or any exception
return `_generate_enhanced_fallback_response({'type': 'analysis'}, ...)`. -/
def analyze_command_outputs (response : HttpOutcome) : String :=
  match response with
  | .ok content => content
  | .httpError _ => generate_enhanced_fallback_response "analysis"
  | .exn _ => generate_enhanced_fallback_response "analysis"

end OpenRouterProvider

namespace LocalLLMProvider

/-- `LocalLLMProvider._generate_enhanced_fallback_response`
(src/llm_client.py:1084-1088) delegates to the OpenRouter implementation. -/
def generate_enhanced_fallback_response (intent_type : String) : String :=
  OpenRouterProvider.generate_enhanced_fallback_response intent_type

/-- `LocalLLMProvider.suggest_commands` (src/llm_client.py:870-933), a
verbatim duplicate of the OpenRouter body: extract and truncate to 3. -/
def suggest_commands (response : HttpOutcome) : List String :=
  match response with
  | .ok content => (extractKubectlCommands content).take 3
  | .httpError _ => []
  | .exn _ => []

/-- `LocalLLMProvider.suggest_follow_up_commands`
(src/llm_client.py:998-1070), a verbatim duplicate: truncate to 2. -/
def suggest_follow_up_commands (response : HttpOutcome) : List String :=
  match response with
  | .ok content => (extractKubectlCommands content).take 2
  | .httpError _ => []
  | .exn _ => []

/-- `LocalLLMProvider.analyze_command_outputs` (src/llm_client.py:935-996),
a verbatim duplicate of the OpenRouter body. -/
def analyze_command_outputs (response : HttpOutcome) : String :=
  match response with
  | .ok content => content
  | .httpError _ => generate_enhanced_fallback_response "analysis"
  | .exn _ => generate_enhanced_fallback_response "analysis"

end LocalLLMProvider

/- § Orchestrator: the chat endpoint of src/app.py -/

namespace Chat

/-- The budget derivation of the chat endpoint (src/app.py:874-880):
`max_commands = classification.suggested_max_commands`, reduced by
`min` only when `user_prefs.get('max_commands_preference')` is truthy —
a present-but-zero preference is falsy in Python and is NOT applied.
`pref = none` models a missing preferences row or missing key. -/
def effectiveMaxCommands (suggested_max_commands : Nat) (pref : Option Nat) : Nat :=
  match pref with
  | some p => if p ≠ 0 then min suggested_max_commands p else suggested_max_commands
  | none => suggested_max_commands

/-- The truncation of the suggested command list (src/app.py:889-892):
`if suggested_commands and len(suggested_commands) > max_commands:
suggested_commands = suggested_commands[:max_commands]`. -/
def truncateSuggested (cmds : List String) (max_commands : Nat) : List String :=
  if cmds ≠ [] ∧ cmds.length > max_commands then cmds.take max_commands else cmds

/-- The per-command execution step of the chat loop (src/app.py:981-987 and
1024-1029): each suggested command string is split on whitespace, its first
token dropped, and the remaining argument vector is handed to
`_run_kubectl_command`.  This function returns, per command, the pair
(command text, argument vector passed to the executor). -/
def chatCommandPhase (suggested : List String) : List (String × List String) :=
  suggested.map (fun cmd => (cmd, (pySplitWhitespace cmd).drop 1))

/-- Python dictionary assignment `d[k] = v` on an insertion-ordered
association list: update in place when the key exists, append otherwise. -/
def pyDictInsert (m : List (String × KubectlResult)) (k : String) (v : KubectlResult) :
    List (String × KubectlResult) :=
  if m.any (fun q => q.1 == k) then
    m.map (fun q => if q.1 == k then (k, v) else q)
  else
    m ++ [(k, v)]

/-- The `command_outputs[cmd] = output` accumulation of the chat loops
(src/app.py:978-997 primary phase, 1024-1029 follow-up phase).  `execs`
pairs each executed command text with the `KubectlResult` its execution
returned (execution results are external observations). -/
def commandOutputsLoop (m0 : List (String × KubectlResult))
    (execs : List (String × KubectlResult)) : List (String × KubectlResult) :=
  execs.foldl (fun m p => pyDictInsert m p.1 p.2) m0

/-- Modelled from the spec: the read-only verb allow-list of the Command
Safety Gate (spec §4.2).  No such gate exists anywhere under src/ — the chat
endpoint (src/app.py:965, "no verification needed now") executes every
suggested command — so the allow-list is taken from the spec wording. -/
def specReadOnlyVerbs : List String :=
  ["get", "describe", "logs", "top", "list", "cluster-info"]

/-- Modelled from the spec: the Safety Gate verb check (spec §4.2) applied
to a candidate command string, reading the verb as the token after the tool
name. -/
def specSafetyGateAllows (cmd : String) : Bool :=
  match pySplitWhitespace cmd with
  | _ :: verb :: _ => specReadOnlyVerbs.contains verb
  | _ => false

end Chat

/- § Claim theorems -/

/-- C1: the claim says every candidate command with a non-read-only verb is
rejected by the Safety Gate and never reaches the Diagnostic Executor.  The
code has no such gate: the chat endpoint (src/app.py:965-997) executes every
suggested command.  This theorem evaluates the embedded chat execution phase
at the failing input `kubectl delete pod foo`: the verb `delete` is outside
the spec allow-list, yet the command is passed to `_run_kubectl_command`
with argument vector `delete pod foo`. -/
theorem chat_executes_disallowed_verb :
    Chat.specSafetyGateAllows "kubectl delete pod foo" = false ∧
    Chat.chatCommandPhase ["kubectl delete pod foo"] =
      [("kubectl delete pod foo", ["delete", "pod", "foo"])] := by
  constructor
  · rfl
  · rfl

/-- C2: `_run_kubectl_command` is total over all subprocess outcomes and
converts each exceptional outcome into a result with `success = false` and
the exception text in `error`; a timeout yields exactly
`Command timed out after t seconds`. -/
theorem run_kubectl_command_converts_faults (kc : Option String)
    (cmd : List String) (t : Nat) (msg : String) :
    ((K8sClient.run_kubectl_command kc cmd t .timedOut).success = false ∧
      (K8sClient.run_kubectl_command kc cmd t .timedOut).error =
        some ("Command timed out after " ++ toString t ++ " seconds")) ∧
    ((K8sClient.run_kubectl_command kc cmd t .fileNotFound).success = false ∧
      (K8sClient.run_kubectl_command kc cmd t .fileNotFound).error =
        some "kubectl not found - please install kubectl or ensure it\x27s in PATH") ∧
    ((K8sClient.run_kubectl_command kc cmd t (.otherError msg)).success = false ∧
      (K8sClient.run_kubectl_command kc cmd t (.otherError msg)).error = some msg) :=
  ⟨⟨rfl, rfl⟩, ⟨rfl, rfl⟩, ⟨rfl, rfl⟩⟩

/-- C3 (counterexample): the claim says the effective budget equals
`min(suggested_max_commands, preference)` whenever the user preference is
present.  A present-but-zero preference is falsy in Python
(src/app.py:879), so the reduction is skipped: with `suggested = 3` and
`preference = 0` the code keeps budget 3, not `min 3 0 = 0`. -/
theorem budget_zero_preference_counterexample :
    Chat.effectiveMaxCommands 3 (some 0) ≠ min 3 0 := by
  decide

/-- C3 (amended): when the user preference is present and nonzero the
effective budget is `min(suggested, preference)`; the effective budget never
exceeds `suggested_max_commands`; the truncated suggestion list has at most
effective-budget many commands and is an index-order prefix of the
suggestion list. -/
theorem budget_bounds (smax p : Nat) (pref : Option Nat) (cmds : List String)
    (hp : p ≠ 0) :
    Chat.effectiveMaxCommands smax (some p) = min smax p ∧
    Chat.effectiveMaxCommands smax pref ≤ smax ∧
    (Chat.truncateSuggested cmds (Chat.effectiveMaxCommands smax pref)).length ≤
      Chat.effectiveMaxCommands smax pref ∧
    Chat.truncateSuggested cmds (Chat.effectiveMaxCommands smax pref) <+: cmds := by
  refine ⟨by simp [Chat.effectiveMaxCommands, hp], ?_, ?_, ?_⟩
  · cases pref with
    | none => exact Nat.le_refl _
    | some q =>
      by_cases hq : q = 0
      · simp [Chat.effectiveMaxCommands, hq]
      · simp only [Chat.effectiveMaxCommands, if_pos hq, ne_eq]
        exact Nat.min_le_left _ _
  · unfold Chat.truncateSuggested
    split
    · simp
    · rename_i h
      rcases Decidable.em (cmds = []) with hnil | hnil
      · simp [hnil]
      · have : ¬ cmds.length > Chat.effectiveMaxCommands smax pref := fun hgt => h ⟨hnil, hgt⟩
        omega
  · unfold Chat.truncateSuggested
    split
    · exact ⟨cmds.drop _, List.take_append_drop _ _⟩
    · exact ⟨[], List.append_nil _⟩

/-- C3 (witness): the amended budget theorem applied at suggested budget 3,
preference 1 and a two-command suggestion list. -/
theorem budget_bounds_witness :
    (1 : Nat) ≠ 0 ∧
    (Chat.effectiveMaxCommands 3 (some 1) = min 3 1 ∧
     Chat.effectiveMaxCommands 3 (some 1) ≤ 3 ∧
     (Chat.truncateSuggested ["kubectl get pods", "kubectl get nodes"]
        (Chat.effectiveMaxCommands 3 (some 1))).length ≤
        Chat.effectiveMaxCommands 3 (some 1) ∧
     Chat.truncateSuggested ["kubectl get pods", "kubectl get nodes"]
        (Chat.effectiveMaxCommands 3 (some 1)) <+:
        ["kubectl get pods", "kubectl get nodes"]) :=
  ⟨by decide, budget_bounds 3 1 (some 1) ["kubectl get pods", "kubectl get nodes"] (by decide)⟩

/-- C4: for every backend response, both providers cap primary suggestions
at 3 commands and follow-up suggestions at 2 commands. -/
theorem suggestion_caps (r : HttpOutcome) :
    (OpenRouterProvider.suggest_commands r).length ≤ 3 ∧
    (OpenRouterProvider.suggest_follow_up_commands r).length ≤ 2 ∧
    (LocalLLMProvider.suggest_commands r).length ≤ 3 ∧
    (LocalLLMProvider.suggest_follow_up_commands r).length ≤ 2 := by
  cases r <;>
    refine ⟨?_, ?_, ?_, ?_⟩ <;>
      first
        | exact List.length_take_le _ _
        | simp [OpenRouterProvider.suggest_commands,
            OpenRouterProvider.suggest_follow_up_commands,
            LocalLLMProvider.suggest_commands,
            LocalLLMProvider.suggest_follow_up_commands,
            List.length_take]

/-- C6: a non-200 status or an exception in `analyze_command_outputs` yields
the deterministic canned fallback for the `analysis` intent (the generic
text), for both providers; the fallback generator selects the cluster-health
and pod-analysis texts for those intent types; and the suggestion methods
return the empty list, never an exception, on the same failures. -/
theorem analysis_fallback_deterministic (s : Nat) (m : String) :
    OpenRouterProvider.analyze_command_outputs (.httpError s) = genericFallbackText ∧
    OpenRouterProvider.analyze_command_outputs (.exn m) = genericFallbackText ∧
    LocalLLMProvider.analyze_command_outputs (.httpError s) = genericFallbackText ∧
    LocalLLMProvider.analyze_command_outputs (.exn m) = genericFallbackText ∧
    OpenRouterProvider.generate_enhanced_fallback_response "cluster_health" =
      clusterHealthFallbackText ∧
    OpenRouterProvider.generate_enhanced_fallback_response "pod_analysis" =
      podAnalysisFallbackText ∧
    OpenRouterProvider.suggest_commands (.httpError s) = [] ∧
    OpenRouterProvider.suggest_commands (.exn m) = [] ∧
    OpenRouterProvider.suggest_follow_up_commands (.httpError s) = [] ∧
    OpenRouterProvider.suggest_follow_up_commands (.exn m) = [] ∧
    LocalLLMProvider.suggest_commands (.httpError s) = [] ∧
    LocalLLMProvider.suggest_commands (.exn m) = [] ∧
    LocalLLMProvider.suggest_follow_up_commands (.httpError s) = [] ∧
    LocalLLMProvider.suggest_follow_up_commands (.exn m) = [] := by
  refine ⟨rfl, rfl, rfl, rfl, ?_, ?_, rfl, rfl, rfl, rfl, rfl, rfl, rfl, rfl⟩ <;>
    simp [OpenRouterProvider.generate_enhanced_fallback_response]

/-- C5: outcome classification priority of `_run_kubectl_command` on a
completed subprocess: a non-zero exit with `not found` in the lower-cased
stderr is classified tool-missing first (`kubectl_available = some false`,
no `cluster_accessible` key); otherwise a non-zero exit whose stderr matches
one of the connection-failure patterns is classified target-unreachable
(`cluster_accessible = some false`, no `kubectl_available` key); otherwise
`success = (returncode == 0)` with stdout and stderr captured verbatim.  The
two failure shapes carry distinct field patterns, hence are mutually
distinguishable. -/
theorem executor_outcome_classification (kc : Option String) (cmd : List String)
    (t : Nat) (rc : Int) (out err : String) :
    (rc ≠ 0 → pyIn "not found" (pyLower err) = true →
      (K8sClient.run_kubectl_command kc cmd t (.completed rc out err)).kubectl_available =
          some false ∧
        (K8sClient.run_kubectl_command kc cmd t (.completed rc out err)).success = false ∧
        (K8sClient.run_kubectl_command kc cmd t (.completed rc out err)).cluster_accessible =
          none) ∧
    (rc ≠ 0 → pyIn "not found" (pyLower err) = false →
      (pyIn "unable to connect" (pyLower err) || pyIn "connection refused" (pyLower err) ||
        pyIn "no configuration" (pyLower err) || pyIn "invalid configuration" (pyLower err)) =
          true →
      (K8sClient.run_kubectl_command kc cmd t (.completed rc out err)).cluster_accessible =
          some false ∧
        (K8sClient.run_kubectl_command kc cmd t (.completed rc out err)).success = false ∧
        (K8sClient.run_kubectl_command kc cmd t (.completed rc out err)).kubectl_available =
          none) ∧
    (rc = 0 ∨
        (pyIn "not found" (pyLower err) = false ∧
          (pyIn "unable to connect" (pyLower err) || pyIn "connection refused" (pyLower err) ||
            pyIn "no configuration" (pyLower err) ||
            pyIn "invalid configuration" (pyLower err)) = false) →
      (K8sClient.run_kubectl_command kc cmd t (.completed rc out err)).success = (rc == 0) ∧
        (K8sClient.run_kubectl_command kc cmd t (.completed rc out err)).stdout = out ∧
        (K8sClient.run_kubectl_command kc cmd t (.completed rc out err)).stderr = err) := by
  refine ⟨?_, ?_, ?_⟩
  · intro h1 h2
    have hb : (rc != 0 && pyIn "not found" (pyLower err)) = true := by
      simp [bne_iff_ne, h1, h2]
    simp [K8sClient.run_kubectl_command, hb]
  · intro h1 h2 h3
    have hb1 : (rc != 0 && pyIn "not found" (pyLower err)) = false := by
      simp [h2]
    have hb2 : (rc != 0 &&
        (pyIn "unable to connect" (pyLower err) || pyIn "connection refused" (pyLower err) ||
         pyIn "no configuration" (pyLower err) || pyIn "invalid configuration" (pyLower err))) =
        true := by
      simp [bne_iff_ne, h1, h3]
    simp [K8sClient.run_kubectl_command, hb1, hb2]
  · intro h
    rcases h with h0 | ⟨hnf, hconn⟩
    · have hb : (rc != 0) = false := by simp [bne_iff_ne, h0]
      simp [K8sClient.run_kubectl_command, hb]
    · simp [K8sClient.run_kubectl_command, hnf, hconn]

/-- C5 (witness): crafted stderr fixtures — a `not found` stderr yields the
tool-missing shape and a `connection refused` stderr yields the
target-unreachable shape. -/
theorem executor_outcome_classification_witness :
    ((1 : Int) ≠ 0 ∧ pyIn "not found" (pyLower "sh: kubectl: not found") = true ∧
      (K8sClient.run_kubectl_command none ["get", "pods"] 30
          (.completed 1 "" "sh: kubectl: not found")).kubectl_available = some false) ∧
    ((1 : Int) ≠ 0 ∧ pyIn "not found" (pyLower "The connection refused") = false ∧
      (K8sClient.run_kubectl_command none ["get", "pods"] 30
          (.completed 1 "" "The connection refused")).cluster_accessible = some false) :=
  ⟨⟨by decide, by decide,
    ((executor_outcome_classification none ["get", "pods"] 30 1 ""
        "sh: kubectl: not found").1 (by decide) (by decide)).1⟩,
   ⟨by decide, by decide,
    ((executor_outcome_classification none ["get", "pods"] 30 1 ""
        "The connection refused").2.1 (by decide) (by decide) (by decide)).1⟩⟩

/-- A pair with a different key survives one Python dict assignment
unchanged. -/
theorem mem_pyDictInsert_of_ne {m : List (String × KubectlResult)} {k : String}
    {v : KubectlResult} (c : String) (o : KubectlResult) (h : (k, v) ∈ m)
    (hne : c ≠ k) : (k, v) ∈ Chat.pyDictInsert m c o := by
  unfold Chat.pyDictInsert
  split
  · have hmap := List.mem_map_of_mem
      (fun q : String × KubectlResult => if q.1 == c then (c, o) else q) h
    have hkc : ((k, v).1 == c) = false := by
      simp only [beq_eq_false_iff_ne, ne_eq]
      exact fun hh => hne hh.symm
    simpa [hkc] using hmap
  · exact List.mem_append_left _ h

/-- C7 — first the counterexample data: a primary result and a differing
re-execution result for the same command text. -/
def samplePrimaryResult : KubectlResult :=
  { success := true
    error := none
    stdout := "pod-a Running"
    stderr := ""
    returncode := 0
    command := "kubectl get pods"
    kubectl_available := some true
    cluster_accessible := some true }

/-- The result observed when the duplicate follow-up command is re-executed
(cluster state changed between the two phases). -/
def sampleFollowUpResult : KubectlResult :=
  { samplePrimaryResult with stdout := "pod-a CrashLoopBackOff" }

/-- C7 (counterexample): the follow-up loop writes through Python dict
assignment (src/app.py:1028), so a follow-up command whose text duplicates a
primary command replaces the primary entry: the pair recorded in the primary
phase is gone afterwards. -/
theorem followup_overwrites_duplicate_counterexample :
    Chat.commandOutputsLoop [("kubectl get pods", samplePrimaryResult)]
        [("kubectl get pods", sampleFollowUpResult)] =
      [("kubectl get pods", sampleFollowUpResult)] ∧
    ("kubectl get pods", samplePrimaryResult) ∉
      Chat.commandOutputsLoop [("kubectl get pods", samplePrimaryResult)]
        [("kubectl get pods", sampleFollowUpResult)] ∧
    samplePrimaryResult ≠ sampleFollowUpResult := by
  decide

/-- C7 (amended): the follow-up phase only adds entries as long as no
follow-up command's text duplicates an existing key; every (command, result)
pair whose key is not re-executed is still present, unchanged, afterwards. -/
theorem followup_preserves_distinct_entries (m fus : List (String × KubectlResult))
    (k : String) (v : KubectlResult) (hmem : (k, v) ∈ m)
    (hfresh : ∀ p ∈ fus, p.1 ≠ k) :
    (k, v) ∈ Chat.commandOutputsLoop m fus := by
  induction fus generalizing m with
  | nil => simpa [Chat.commandOutputsLoop] using hmem
  | cons p ps ih =>
    have hstep := mem_pyDictInsert_of_ne p.1 p.2 hmem (hfresh p (List.mem_cons_self _ _))
    exact ih (Chat.pyDictInsert m p.1 p.2) hstep
      (fun q hq => hfresh q (List.mem_cons_of_mem _ hq))

/-- C7 (witness): a primary entry survives a follow-up phase whose only
command has a different text. -/
theorem followup_preserves_distinct_entries_witness :
    (("kubectl get pods", samplePrimaryResult) ∈
        [("kubectl get pods", samplePrimaryResult)] ∧
      (∀ p ∈ [("kubectl describe pod pod-a", sampleFollowUpResult)],
        (p : String × KubectlResult).1 ≠ "kubectl get pods")) ∧
    ("kubectl get pods", samplePrimaryResult) ∈
      Chat.commandOutputsLoop [("kubectl get pods", samplePrimaryResult)]
        [("kubectl describe pod pod-a", sampleFollowUpResult)] :=
  ⟨⟨by decide, by decide⟩,
   followup_preserves_distinct_entries [("kubectl get pods", samplePrimaryResult)]
     [("kubectl describe pod pod-a", sampleFollowUpResult)]
     "kubectl get pods" samplePrimaryResult (by decide) (by decide)⟩

/-- A non-whitespace member of a list survives dropping leading
whitespace. -/
theorem mem_dropWhile_whitespace {c : Char} {l : List Char}
    (hc : c.isWhitespace = false) (h : c ∈ l) :
    c ∈ l.dropWhile Char.isWhitespace := by
  have hsplit : c ∈ l.takeWhile Char.isWhitespace ++ l.dropWhile Char.isWhitespace := by
    rw [List.takeWhile_append_dropWhile]
    exact h
  rcases List.mem_append.mp hsplit with h1 | h2
  · have := List.mem_takeWhile_imp h1
    rw [hc] at this
    exact absurd this (by simp)
  · exact h2

/-- A non-whitespace member of a list survives Python `strip`. -/
theorem mem_chStrip {c : Char} {l : List Char} (hc : c.isWhitespace = false)
    (h : c ∈ l) : c ∈ chStrip l := by
  unfold chStrip
  have h1 := mem_dropWhile_whitespace hc h
  have h2 : c ∈ (l.dropWhile Char.isWhitespace).reverse := List.mem_reverse.mpr h1
  have h3 := mem_dropWhile_whitespace hc h2
  exact List.mem_reverse.mpr h3

/-- A path containing one of the shell metacharacters is rejected by
`_verify_file_path_safety` with the fixed reason string. -/
theorem verify_rejects_metachar {path : String} {c : Char}
    (hc : c ∈ K8sClient.pathMetachars) (hmem : c ∈ path.data) :
    K8sClient.verify_file_path_safety path = (false, "Invalid characters in path") := by
  have hall : ∀ d ∈ K8sClient.pathMetachars, d.isWhitespace = false := by decide
  have hws : c.isWhitespace = false := hall c hc
  have hstrip : c ∈ (pyStrip path).data := mem_chStrip hws hmem
  have hne : ¬ (pyStrip path = "") := by
    intro hemp
    rw [hemp] at hstrip
    simp at hstrip
  have hany : K8sClient.pathMetachars.any
      (fun d => decide (d ∈ (pyStrip path).data)) = true :=
    List.any_eq_true.mpr ⟨c, hc, by simpa using hstrip⟩
  simp only [K8sClient.verify_file_path_safety, if_neg hne, hany, if_pos]

/-- C8: every in-pod file or directory path containing a pipe, ampersand,
semicolon, backtick, dollar or parenthesis is rejected by the path-safety
validation with the fixed reason, and both `read_pod_file` and
`browse_pod_files` then return `success = false` while handing no argument
vector at all to the executor (empty invocation trace). -/
theorem metachar_paths_rejected (run : List String → KubectlResult)
    (ns pod path : String) (c : Char)
    (hc : c ∈ K8sClient.pathMetachars) (hmem : c ∈ path.data) :
    K8sClient.verify_file_path_safety path = (false, "Invalid characters in path") ∧
    (K8sClient.read_pod_file run ns pod path).1.success = false ∧
    (K8sClient.read_pod_file run ns pod path).2 = [] ∧
    (K8sClient.browse_pod_files run ns pod path).1.success = false ∧
    (K8sClient.browse_pod_files run ns pod path).2 = [] := by
  have hv := verify_rejects_metachar hc hmem
  refine ⟨hv, ?_, ?_, ?_, ?_⟩ <;>
    simp [K8sClient.read_pod_file, K8sClient.browse_pod_files, hv]

/-- C8 (witness): the rejection theorem applied to an injection-shaped path
containing a semicolon. -/
theorem metachar_paths_rejected_witness :
    (';' ∈ K8sClient.pathMetachars ∧ ';' ∈ ("/etc/passwd; rm -rf /" : String).data) ∧
    K8sClient.verify_file_path_safety "/etc/passwd; rm -rf /" =
      (false, "Invalid characters in path") :=
  ⟨⟨by decide, by decide⟩,
   (metachar_paths_rejected (fun _ => samplePrimaryResult) "default" "pod-a"
     "/etc/passwd; rm -rf /" ';' (by decide) (by decide)).1⟩

/-- Splitting a string of the shape `kubectl ` ++ tail on whitespace always
yields `kubectl` as the first word. -/
theorem chWordsAux_kubectl_head (p : List Char) :
    chWordsAux [] ("kubectl ".data ++ p) = "kubectl".data :: chWordsAux [] p := rfl

/-- Every command produced by the per-line extraction loop carries the
`kubectl ` prefix on its character data. -/
theorem mem_extractLine_isKubectl {line cmd : String}
    (h : cmd ∈ extractLineCommands line) : "kubectl ".data <+: cmd.data := by
  simp only [extractLineCommands] at h
  split at h
  · rename_i hcond
    split at h
    · rcases List.mem_filterMap.mp h with ⟨part, _, hf⟩
      split at hf
      · exact absurd hf (by simp)
      · have hcmd : ("kubectl " ++ pyStrip part) = cmd := by
          injection hf
        rw [← hcmd, String.data_append]
        exact ⟨_, rfl⟩
    · rename_i hnotin
      have hcmd : cmd = pyStrip line := by simpa using h
      have hstarts : pyStartsWith (pyStrip line) "kubectl " = true := by
        rcases Bool.or_eq_true _ _ |>.mp hcond with hs | hin
        · exact hs
        · exact absurd hin hnotin
      have := of_decide_eq_true hstarts
      rw [hcmd]
      exact this
  · exact absurd h (by simp)

/-- Commands surviving the hard-cap truncation of a suggestion method still
come from the extraction loop, hence carry the prefix. -/
theorem mem_extractTake_isKubectl {content cmd : String} {k : Nat}
    (h : cmd ∈ (extractKubectlCommands content).take k) :
    "kubectl ".data <+: cmd.data := by
  have h2 := List.mem_of_mem_take h
  unfold extractKubectlCommands at h2
  rcases List.mem_flatten.mp h2 with ⟨lcmds, hl, hcm⟩
  rcases List.mem_map.mp hl with ⟨line, _, rfl⟩
  exact mem_extractLine_isKubectl hcm

/-- For any command whose data starts with `kubectl `, whitespace splitting
puts exactly `kubectl` first. -/
theorem pySplit_head_of_kubectl {cmd : String} (h : "kubectl ".data <+: cmd.data) :
    (pySplitWhitespace cmd).head? = some "kubectl" := by
  rcases h with ⟨t, ht⟩
  unfold pySplitWhitespace
  rw [← ht, chWordsAux_kubectl_head]
  rfl

/-- C10: every string returned by the four suggestion methods (both
providers, primary and follow-up) begins with `kubectl `, and dropping the
first whitespace-separated token — as the chat loop does before execution —
removes exactly the token `kubectl`, never a command argument. -/
theorem suggestions_kubectl_prefixed (r : HttpOutcome) (cmd : String)
    (h : cmd ∈ OpenRouterProvider.suggest_commands r ∨
      cmd ∈ OpenRouterProvider.suggest_follow_up_commands r ∨
      cmd ∈ LocalLLMProvider.suggest_commands r ∨
      cmd ∈ LocalLLMProvider.suggest_follow_up_commands r) :
    pyStartsWith cmd "kubectl " = true ∧
    (pySplitWhitespace cmd).head? = some "kubectl" := by
  have hpre : "kubectl ".data <+: cmd.data := by
    cases r with
    | ok content =>
        rcases h with h | h | h | h <;> exact mem_extractTake_isKubectl h
    | httpError s =>
        rcases h with h | h | h | h <;>
          simp [OpenRouterProvider.suggest_commands,
            OpenRouterProvider.suggest_follow_up_commands,
            LocalLLMProvider.suggest_commands,
            LocalLLMProvider.suggest_follow_up_commands] at h
    | exn m =>
        rcases h with h | h | h | h <;>
          simp [OpenRouterProvider.suggest_commands,
            OpenRouterProvider.suggest_follow_up_commands,
            LocalLLMProvider.suggest_commands,
            LocalLLMProvider.suggest_follow_up_commands] at h
  exact ⟨decide_eq_true hpre, pySplit_head_of_kubectl hpre⟩

/-- C10 (witness): the theorem applied to a concrete backend response whose
extraction yields the single command `kubectl get pods`. -/
theorem suggestions_kubectl_prefixed_witness :
    ("kubectl get pods" ∈
        OpenRouterProvider.suggest_commands (.ok "- kubectl get pods") ∨
      "kubectl get pods" ∈
        OpenRouterProvider.suggest_follow_up_commands (.ok "- kubectl get pods") ∨
      "kubectl get pods" ∈
        LocalLLMProvider.suggest_commands (.ok "- kubectl get pods") ∨
      "kubectl get pods" ∈
        LocalLLMProvider.suggest_follow_up_commands (.ok "- kubectl get pods")) ∧
    (pyStartsWith "kubectl get pods" "kubectl " = true ∧
      (pySplitWhitespace "kubectl get pods").head? = some "kubectl") :=
  ⟨Or.inl (by decide),
   suggestions_kubectl_prefixed (.ok "- kubectl get pods") "kubectl get pods"
     (Or.inl (by decide))⟩
